import Mathlib

/-!
Verification of the SCRAM client wrapper `internal/scram/scram.go` of the mgo
MongoDB driver, against its natural-language specification.

The repository code under verification is the ~150-line wrapper in
`internal/scram/scram.go` (`Method`, `NewMethod`, `Client`, `NewClient`,
`Client.Step`, `Client.Out`, `Client.Err`).  The wrapper delegates the actual
SCRAM conversation to the external `xdg-go/scram` library, whose code is not
part of this repository; that engine (hash suite, wire codec, crypto core and
conversation state machine) is therefore modelled from the specification
(sections 4.1-4.4), which describes it in detail, and from RFC 5802 which both
the spec and the library implement.

Byte strings are modelled as `List Nat` with every element a byte value;
Go slices of bytes are modelled as `Option (List Nat)` where `none` stands for
a nil slice.  Machine words are `Nat` with explicit reduction `% 2^32`.
-/

namespace Scram

/-- Bytes of an ASCII string: the code points of its characters.  For the ASCII
protocol strings used by SCRAM this agrees with Go's UTF-8 `[]byte` view. -/
def asciiBytes (s : String) : List Nat := s.toList.map Char.toNat

/-! ### SHA-1 (RFC 3174)

Modelled from the spec: section 4.1 requires a Hash Suite supplying SHA-1
(20-byte digest) for the `SCRAM-SHA-1` Method; the implementation lives in the
external library.  Words are `Nat` reduced mod 2^32; the 80-word message
schedule of a block is packed into a single `Nat`, word `i` occupying bits
`[32*i, 32*i+32)`. -/

/-- Reduction of a machine word modulo 2^32. -/
def mask32 (x : Nat) : Nat := x % 4294967296

/-- Rotate a 32-bit word left by `n` bits. -/
def rotl32 (n x : Nat) : Nat := mask32 ((x <<< n) ||| (x >>> (32 - n)))

/-- Word `i` of a packed message schedule. -/
def wrd (ws i : Nat) : Nat := (ws >>> (32 * i)) % 4294967296

/-- One SHA-1 message-schedule extension step: append word `i`. -/
def schedStep (ws i : Nat) : Nat :=
  ws ||| ((rotl32 1 ((wrd ws (i-3)) ^^^ (wrd ws (i-8)) ^^^ (wrd ws (i-14)) ^^^ (wrd ws (i-16)))) <<< (32*i))

/-- Extend the schedule from word `80 - k` up to word 79. -/
def schedAux : Nat → Nat → Nat
  | ws, 0 => ws
  | ws, k+1 => schedAux (schedStep ws (80 - (k+1))) k

/-- The five-word SHA-1 state. -/
structure H5 where
  a : Nat
  b : Nat
  c : Nat
  d : Nat
  e : Nat
  deriving DecidableEq

/-- SHA-1 round function and constant for round `i`. -/
def fK (i b c d : Nat) : Nat × Nat :=
  if i < 20 then ((b &&& c) ||| ((4294967295 ^^^ b) &&& d), 1518500249)
  else if i < 40 then (b ^^^ c ^^^ d, 1859775393)
  else if i < 60 then ((b &&& c) ||| (b &&& d) ||| (c &&& d), 2400959708)
  else (b ^^^ c ^^^ d, 3395469782)

/-- One SHA-1 round. -/
def roundStep (ws : Nat) (st : H5) (i : Nat) : H5 :=
  let fk := fK i st.b st.c st.d
  let t := mask32 (rotl32 5 st.a + fk.1 + st.e + fk.2 + wrd ws i)
  ⟨t, st.a, rotl32 30 st.b, st.c, st.d⟩

/-- Rounds `80 - k` up to 79. -/
def roundsAux (ws : Nat) : H5 → Nat → H5
  | st, 0 => st
  | st, k+1 => roundsAux ws (roundStep ws st (80 - (k+1))) k

/-- SHA-1 compression of one 64-byte chunk into the running state. -/
def compress (st : H5) (chunk : Nat) : H5 :=
  let ws := schedAux chunk 64
  let r := roundsAux ws st 80
  ⟨mask32 (st.a + r.a), mask32 (st.b + r.b), mask32 (st.c + r.c),
   mask32 (st.d + r.d), mask32 (st.e + r.e)⟩

/-- SHA-1 initial state. -/
def sha1Init : H5 := ⟨1732584193, 4023233417, 2562383102, 271733878, 3285377520⟩

/-- The `k` big-endian bytes of `n` (most significant first). -/
def beBytes : Nat → Nat → List Nat
  | 0, _ => []
  | k+1, n => (n >>> (8*k)) % 256 :: beBytes k n

/-- Merkle-Damgard padding shared by SHA-1 and SHA-256: a 0x80 byte, zeros to
55 mod 64, and the bit length as 8 big-endian bytes. -/
def padMsg (msg : List Nat) : List Nat :=
  let len := msg.length
  msg ++ [128] ++ List.replicate ((55 + 64 - len % 64) % 64) 0 ++ beBytes 8 (8 * len)

/-- Pack up to 16 big-endian 32-bit words of a 64-byte chunk, word `j` at bit
`32*j`. -/
def chunkWords : List Nat → Nat → Nat
  | b0::b1::b2::b3::rest, j => ((((b0*256+b1)*256+b2)*256+b3) <<< (32*j)) ||| chunkWords rest (j+1)
  | _, _ => 0

/-- Split a padded message into packed 64-byte chunks (fuel-driven). -/
def toChunksAux : Nat → List Nat → List Nat
  | 0, _ => []
  | _, [] => []
  | fuel+1, bs => chunkWords (bs.take 64) 0 :: toChunksAux fuel (bs.drop 64)

/-- Split a padded message into packed 64-byte chunks. -/
def toChunks (bs : List Nat) : List Nat := toChunksAux bs.length bs

/-- SHA-1 digest (20 bytes) of a byte string. -/
def sha1 (msg : List Nat) : List Nat :=
  let st := (toChunks (padMsg msg)).foldl compress sha1Init
  beBytes 4 st.a ++ beBytes 4 st.b ++ beBytes 4 st.c ++ beBytes 4 st.d ++ beBytes 4 st.e

/-! ### SHA-256 (FIPS 180-4)

Modelled from the spec: section 4.1 requires the 32-byte-digest hash for the
`SCRAM-SHA-256` Method; the implementation lives in the external library. -/

/-- Rotate a 32-bit word right by `n` bits. -/
def rotr32 (n x : Nat) : Nat := mask32 ((x >>> n) ||| (x <<< (32 - n)))

/-- The 64 SHA-256 round constants. -/
def k256 : List Nat :=
  [1116352408, 1899447441, 3049323471, 3921009573,
   961987163, 1508970993, 2453635748, 2870763221,
   3624381080, 310598401, 607225278, 1426881987,
   1925078388, 2162078206, 2614888103, 3248222580,
   3835390401, 4022224774, 264347078, 604807628,
   770255983, 1249150122, 1555081692, 1996064986,
   2554220882, 2821834349, 2952996808, 3210313671,
   3336571891, 3584528711, 113926993, 338241895,
   666307205, 773529912, 1294757372, 1396182291,
   1695183700, 1986661051, 2177026350, 2456956037,
   2730485921, 2820302411, 3259730800, 3345764771,
   3516065817, 3600352804, 4094571909, 275423344,
   430227734, 506948616, 659060556, 883997877,
   958139571, 1322822218, 1537002063, 1747873779,
   1955562222, 2024104815, 2227730452, 2361852424,
   2428436474, 2756734187, 3204031479, 3329325298]

/-- SHA-256 small sigma 0. -/
def ssig0 (x : Nat) : Nat := (rotr32 7 x) ^^^ (rotr32 18 x) ^^^ (x >>> 3)

/-- SHA-256 small sigma 1. -/
def ssig1 (x : Nat) : Nat := (rotr32 17 x) ^^^ (rotr32 19 x) ^^^ (x >>> 10)

/-- SHA-256 big sigma 0. -/
def bsig0 (x : Nat) : Nat := (rotr32 2 x) ^^^ (rotr32 13 x) ^^^ (rotr32 22 x)

/-- SHA-256 big sigma 1. -/
def bsig1 (x : Nat) : Nat := (rotr32 6 x) ^^^ (rotr32 11 x) ^^^ (rotr32 25 x)

/-- One SHA-256 message-schedule extension step: append word `i`. -/
def schedStep256 (ws i : Nat) : Nat :=
  ws ||| ((mask32 (wrd ws (i-16) + ssig0 (wrd ws (i-15)) + wrd ws (i-7) + ssig1 (wrd ws (i-2)))) <<< (32*i))

/-- Extend the SHA-256 schedule from word `64 - k` up to word 63. -/
def schedAux256 : Nat → Nat → Nat
  | ws, 0 => ws
  | ws, k+1 => schedAux256 (schedStep256 ws (64 - (k+1))) k

/-- The eight-word SHA-256 state. -/
structure H8 where
  a : Nat
  b : Nat
  c : Nat
  d : Nat
  e : Nat
  f : Nat
  g : Nat
  h : Nat
  deriving DecidableEq

/-- One SHA-256 round. -/
def round256 (ws : Nat) (st : H8) (i : Nat) : H8 :=
  let t1 := mask32 (st.h + bsig1 st.e + ((st.e &&& st.f) ^^^ ((4294967295 ^^^ st.e) &&& st.g))
    + k256.getD i 0 + wrd ws i)
  let t2 := mask32 (bsig0 st.a + ((st.a &&& st.b) ^^^ (st.a &&& st.c) ^^^ (st.b &&& st.c)))
  ⟨mask32 (t1 + t2), st.a, st.b, st.c, mask32 (st.d + t1), st.e, st.f, st.g⟩

/-- SHA-256 rounds `64 - k` up to 63. -/
def rounds256 (ws : Nat) : H8 → Nat → H8
  | st, 0 => st
  | st, k+1 => rounds256 ws (round256 ws st (64 - (k+1))) k

/-- SHA-256 compression of one 64-byte chunk into the running state. -/
def compress256 (st : H8) (chunk : Nat) : H8 :=
  let ws := schedAux256 chunk 48
  let r := rounds256 ws st 64
  ⟨mask32 (st.a + r.a), mask32 (st.b + r.b), mask32 (st.c + r.c), mask32 (st.d + r.d),
   mask32 (st.e + r.e), mask32 (st.f + r.f), mask32 (st.g + r.g), mask32 (st.h + r.h)⟩

/-- SHA-256 initial state. -/
def sha256Init : H8 :=
  ⟨1779033703, 3144134277, 1013904242, 2773480762,
   1359893119, 2600822924, 528734635, 1541459225⟩

/-- SHA-256 digest (32 bytes) of a byte string. -/
def sha256 (msg : List Nat) : List Nat :=
  let st := (toChunks (padMsg msg)).foldl compress256 sha256Init
  beBytes 4 st.a ++ beBytes 4 st.b ++ beBytes 4 st.c ++ beBytes 4 st.d ++
  beBytes 4 st.e ++ beBytes 4 st.f ++ beBytes 4 st.g ++ beBytes 4 st.h

/-! ### HMAC and Hi (key derivation)

Modelled from the spec: section 4.1 names an HMAC over the suite's hash and a
PBKDF2-equivalent key-derivation function (`Hi` of RFC 5802) iterated per the
server-sent iteration count; both live in the external library. -/

/-- The HMAC key padded (or hashed, if longer than the 64-byte block) to one
block. -/
def hmacKeyBlock (hash : List Nat → List Nat) (key : List Nat) : List Nat :=
  let k := if 64 < key.length then hash key else key
  k ++ List.replicate (64 - k.length) 0

/-- HMAC over the given hash function with 64-byte blocks (RFC 2104). -/
def hmacH (hash : List Nat → List Nat) (key msg : List Nat) : List Nat :=
  let kb := hmacKeyBlock hash key
  hash ((kb.map (fun b => b ^^^ 92)) ++ hash ((kb.map (fun b => b ^^^ 54)) ++ msg))

/-- Iteration of `Hi`: given the latest value `u = Uk` and the running xor
accumulator, performs `k` further rounds `U(k+1) = HMAC(password, Uk)`,
xor-ing each into the accumulator. -/
def hiAux (hash : List Nat → List Nat) (pass : List Nat) : List Nat → List Nat → Nat → List Nat
  | _, acc, 0 => acc
  | u, acc, k+1 =>
    let u2 := hmacH hash pass u
    hiAux hash pass u2 (List.zipWith (fun x y => x ^^^ y) acc u2) k

/-- The `Hi(password, salt, i)` function of RFC 5802: PBKDF2 with the suite's
HMAC, one output block: `U1 = HMAC(password, salt ++ INT(1))`,
`Uk = HMAC(password, U(k-1))`, result `U1 xor ... xor Ui`. -/
def hi (hash : List Nat → List Nat) (pass salt : List Nat) (iters : Nat) : List Nat :=
  let u1 := hmacH hash pass (salt ++ [0, 0, 0, 1])
  hiAux hash pass u1 u1 (iters - 1)

/-! ### Base64 (RFC 4648, standard alphabet)

Modelled from the spec: section 4.2 requires base64 encode/decode of binary
fields (`s=`, `p=`, `v=`); the implementation lives in the external library. -/

/-- ASCII code of the base64 character for a 6-bit value. -/
def b64chr (n : Nat) : Nat :=
  if n < 26 then 65 + n
  else if n < 52 then 97 + (n - 26)
  else if n < 62 then 48 + (n - 52)
  else if n = 62 then 43 else 47

/-- Base64-encode a byte string (with `=` padding). -/
def b64encode : List Nat → List Nat
  | [] => []
  | [b0] => [b64chr (b0 / 4), b64chr ((b0 % 4) * 16), 61, 61]
  | [b0, b1] => [b64chr (b0 / 4), b64chr ((b0 % 4) * 16 + b1 / 16), b64chr ((b1 % 16) * 4), 61]
  | b0 :: b1 :: b2 :: rest =>
    b64chr (b0 / 4) :: b64chr ((b0 % 4) * 16 + b1 / 16) ::
    b64chr ((b1 % 16) * 4 + b2 / 64) :: b64chr (b2 % 64) :: b64encode rest

/-- The 6-bit value of a base64 alphabet character, if any. -/
def b64val (c : Nat) : Option Nat :=
  if 65 ≤ c ∧ c ≤ 90 then some (c - 65)
  else if 97 ≤ c ∧ c ≤ 122 then some (c - 97 + 26)
  else if 48 ≤ c ∧ c ≤ 57 then some (c - 48 + 52)
  else if c = 43 then some 62
  else if c = 47 then some 63
  else none

/-- Base64-decode a byte string; `none` on malformed input. -/
def b64decode : List Nat → Option (List Nat)
  | [] => some []
  | [c0, c1, 61, 61] => do
    let v0 ← b64val c0
    let v1 ← b64val c1
    some [v0 * 4 + v1 / 16]
  | [c0, c1, c2, 61] => do
    let v0 ← b64val c0
    let v1 ← b64val c1
    let v2 ← b64val c2
    some [v0 * 4 + v1 / 16, (v1 % 16) * 16 + v2 / 4]
  | c0 :: c1 :: c2 :: c3 :: rest => do
    let v0 ← b64val c0
    let v1 ← b64val c1
    let v2 ← b64val c2
    let v3 ← b64val c3
    let tail ← b64decode rest
    some ([v0 * 4 + v1 / 16, (v1 % 16) * 16 + v2 / 4, (v2 % 4) * 64 + v3] ++ tail)
  | _ => none

/-! ### Wire codec

Modelled from the spec: section 4.2, the comma-separated `key=value` message
grammar of RFC 5802; the implementation lives in the external library. -/

/-- Split a byte string at commas (byte 44). -/
def splitComma : List Nat → List (List Nat)
  | [] => [[]]
  | 44 :: rest => [] :: splitComma rest
  | b :: rest =>
    match splitComma rest with
    | [] => [[b]]
    | g :: gs => (b :: g) :: gs

/-- Split a `key=value` field into the one-byte key and the value. -/
def parseAttr (bs : List Nat) : Option (Nat × List Nat) :=
  match bs with
  | k :: 61 :: v => some (k, v)
  | _ => none

/-- Parse a nonempty string of decimal digits. -/
def parseDecAux : List Nat → Nat → Option Nat
  | [], acc => some acc
  | d :: rest, acc => if 48 ≤ d ∧ d ≤ 57 then parseDecAux rest (acc * 10 + (d - 48)) else none

/-- Parse a nonempty string of decimal digits into a `Nat`. -/
def parseDecimal (bs : List Nat) : Option Nat :=
  match bs with
  | [] => none
  | _ => parseDecAux bs 0

/-- Parsed server-first-message: server nonce, decoded salt, iteration count. -/
structure ServerFirst where
  r : List Nat
  salt : List Nat
  iters : Nat
  deriving DecidableEq

/-- Modelled from the spec: decoding of the server-first-message (section 4.2)
performed by the external library.  Extracts `r=` (server nonce), `s=` (base64
salt) and `i=` (positive decimal iteration count), in that order; any other
leading attribute, missing field, undecodable salt or non-positive count fails. -/
def parseServerFirst (msg : List Nat) : Option ServerFirst :=
  match splitComma msg with
  | f1 :: f2 :: f3 :: _ =>
    match parseAttr f1, parseAttr f2, parseAttr f3 with
    | some (114, r), some (115, sB64), some (105, iDigits) => do
      let salt ← b64decode sB64
      let iters ← parseDecimal iDigits
      if iters = 0 then none else some ⟨r, salt, iters⟩
    | _, _, _ => none
  | _ => none

/-- Parsed server-final-message: either a decoded server signature (`v=`) or a
server-reported error (`e=`). -/
inductive ServerFinal where
  | verifier (v : List Nat)
  | reject (reason : List Nat)
  deriving DecidableEq

/-- Modelled from the spec: decoding of the server-final-message (section 4.2)
performed by the external library: `v=<base64 signature>` on success, or
`e=<error text>` which must surface as a distinct server-rejected error. -/
def parseServerFinal (msg : List Nat) : Option ServerFinal :=
  match splitComma msg with
  | f :: _ =>
    match parseAttr f with
    | some (118, vB64) => (b64decode vB64).map ServerFinal.verifier
    | some (101, reason) => some (ServerFinal.reject reason)
    | _ => none
  | _ => none

/-- Modelled from the spec: the username escaping rule of section 4.2
(RFC 5802 section 5.1): replace `=` with `=3D` and `,` with `=2C`. -/
def escapeUser : List Nat → List Nat
  | [] => []
  | 61 :: rest => 61 :: 51 :: 68 :: escapeUser rest
  | 44 :: rest => 61 :: 50 :: 67 :: escapeUser rest
  | b :: rest => b :: escapeUser rest

/-- Whether `pre` is an initial segment of `full` (the nonce prefix check of
section 4.2). -/
def nonceExtends : List Nat → List Nat → Bool
  | [], _ => true
  | _ :: _, [] => false
  | a :: as, b :: bs => (a == b) && nonceExtends as bs

/-! ### Error taxonomy and conversation state machine

Modelled from the spec: sections 4.4 and 7.  The engine itself lives in the
external `xdg-go/scram` library; only its caller (the wrapper) is repository
code. -/

/-- The error taxonomy of spec section 7 (without `UnsupportedMechanism`,
which is the wrapper-level construction error of `NewMethod`). -/
inductive ScramError where
  | protocolError (detail : List Nat)
  | nonceMismatch
  | serverRejected (reason : List Nat)
  | serverSignatureMismatch
  | conversationReused
  deriving DecidableEq

/-- Modelled from the spec: the conversation phases of section 4.4:
`Initial → ClientFirstSent → Completed`, then the fully-done success state or
the terminal `Failed` state.  `clientFirstSent` retains the exact bytes of
client-first-message-bare and `completed` the computed server signature, as
section 4.3 requires. -/
inductive ConvPhase where
  | initial
  | clientFirstSent (clientFirstBare : List Nat)
  | completed (serverSignature : List Nat)
  | done
  | failed (e : ScramError)
  deriving DecidableEq

/-- Modelled from the spec: the single-use conversation state of section 3,
owned by the external library's `ClientConversation`: mechanism name,
credentials, the client nonce (the injectable randomness of section 9), and
the current phase. -/
structure Conv where
  method : String
  user : List Nat
  pass : List Nat
  nonce : List Nat
  phase : ConvPhase
  deriving DecidableEq

/-- Whether a phase is terminal (success or `Failed`), spec section 4.4. -/
def phaseTerminal : ConvPhase → Bool
  | ConvPhase.done => true
  | ConvPhase.failed _ => true
  | _ => false

/-- Modelled from the spec: the hash suite bound to a mechanism name
(section 4.1); the binding is performed by the external library. -/
def suiteHash (method : String) : List Nat → List Nat :=
  if method = "SCRAM-SHA-256" then sha256 else sha1

/-- Transition to `Failed` carrying the error, spec sections 4.4 and 7. -/
def failWith (c : Conv) (e : ScramError) : List Nat × Conv × Option ScramError :=
  ([], { c with phase := ConvPhase.failed e }, some e)

/-- Modelled from the spec: one step of the conversation state machine
(section 4.4), the `ClientConversation.Step` of the external library that the
wrapper's `Step` calls.  Returns the outbound message, the new conversation
state, and the error if any. -/
def engineStep (c : Conv) (input : List Nat) : List Nat × Conv × Option ScramError :=
  match c.phase with
  | ConvPhase.done => ([], c, some ScramError.conversationReused)
  | ConvPhase.failed _ => ([], c, some ScramError.conversationReused)
  | ConvPhase.initial =>
    match input with
    | [] =>
      let bare := asciiBytes "n=" ++ escapeUser c.user ++ asciiBytes ",r=" ++ c.nonce
      (asciiBytes "n,," ++ bare, { c with phase := ConvPhase.clientFirstSent bare }, none)
    | _ => failWith c (ScramError.protocolError (asciiBytes "unexpected server data in first step"))
  | ConvPhase.clientFirstSent bare =>
    match parseServerFirst input with
    | none => failWith c (ScramError.protocolError (asciiBytes "invalid server-first-message"))
    | some sf =>
      if nonceExtends c.nonce sf.r then
        let hash := suiteHash c.method
        let sp := hi hash c.pass sf.salt sf.iters
        let ck := hmacH hash sp (asciiBytes "Client Key")
        let stk := hash ck
        let withoutProof := asciiBytes "c=biws,r=" ++ sf.r
        let authMsg := bare ++ [44] ++ input ++ [44] ++ withoutProof
        let csig := hmacH hash stk authMsg
        let proof := List.zipWith (fun x y => x ^^^ y) ck csig
        let sk := hmacH hash sp (asciiBytes "Server Key")
        let ssig := hmacH hash sk authMsg
        (withoutProof ++ asciiBytes ",p=" ++ b64encode proof,
         { c with phase := ConvPhase.completed ssig }, none)
      else failWith c ScramError.nonceMismatch
  | ConvPhase.completed ssig =>
    match parseServerFinal input with
    | none => failWith c (ScramError.protocolError (asciiBytes "invalid server-final-message"))
    | some (ServerFinal.reject reason) => failWith c (ScramError.serverRejected reason)
    | some (ServerFinal.verifier v) =>
      if v = ssig then ([], { c with phase := ConvPhase.done }, none)
      else failWith c ScramError.serverSignatureMismatch

/-- Modelled from the spec: the external library's `ClientConversation.Valid`,
true exactly when the conversation reached the fully-done success state
(server signature verified). -/
def convValid (c : Conv) : Bool :=
  match c.phase with
  | ConvPhase.done => true
  | _ => false

/-! ### The wrapper, translated from `internal/scram/scram.go` -/

/-- Method defines the variant of SCRAM to use (scram.go lines 67-70). -/
structure Method where
  method : String
  deriving DecidableEq

/-- ScramSha1 selects the SCRAM-SHA-1 variant (scram.go line 74). -/
def ScramSha1 : String := "SCRAM-SHA-1"

/-- ScramSha256 selects the SCRAM-SHA-256 variant (scram.go line 77). -/
def ScramSha256 : String := "SCRAM-SHA-256"

/-- NewMethod (scram.go lines 85-92): a `Method` for the two supported
mechanism strings, otherwise the error built by
`errors.New("invalid SCRAM mechanism")`. -/
def NewMethod (methodString : String) : Except String Method :=
  if methodString = ScramSha1 ∨ methodString = ScramSha256 then
    Except.ok ⟨methodString⟩
  else
    Except.error "invalid SCRAM mechanism"

/-- Client (scram.go lines 61-65): output buffer contents, last error, and the
conversation.  The buffer is its byte contents; `Grow` only reserves capacity. -/
structure Client where
  out : List Nat
  err : Option ScramError
  conv : Conv
  deriving DecidableEq

/-- NewClient (scram.go lines 102-119).  The `switch` has no default case, so
for a `Method` holding any other string the local `client` stays nil and
`client.NewConversation()` faults (modelled as `none`).  The client nonce is
the injectable randomness of spec section 9.  Modelled from the spec: the
external library's setup (`xdg.SHA1.NewClient`/`xdg.SHA256.NewClient`) never
fails for a valid Method (spec section 6), so `err` starts out `none`. -/
def NewClient (method : Method) (user pass : String) (nonce : List Nat) : Option Client :=
  if method.method = ScramSha1 ∨ method.method = ScramSha256 then
    some { out := []
           err := none
           conv := { method := method.method, user := asciiBytes user,
                     pass := asciiBytes pass, nonce := nonce, phase := ConvPhase.initial } }
  else none

/-- Out (scram.go lines 122-127): the data to be sent to the server in the
current step.  `none` models a nil Go slice; both branches of the source
return a non-nil slice. -/
def Client.Out (c : Client) : Option (List Nat) :=
  if c.out.length = 0 then some [] else some c.out

/-- Err (scram.go lines 130-132): the error that occurred, or `none`. -/
def Client.Err (c : Client) : Option ScramError := c.err

/-- Step (scram.go lines 138-144).  Line-by-line:
`c.out.Reset()` empties the buffer; `resp, c.err = c.conv.Step(string(in))`
stores the conversation error; `_, c.err = c.out.Write([]byte(resp))` then
overwrites `c.err` with the error of `bytes.Buffer.Write` - which by the Go
standard library contract is always nil - so the conversation error is lost;
the return value is `c.conv.Valid() || c.err != nil`. -/
def Client.Step (c : Client) (input : List Nat) : Bool × Client :=
  let r := engineStep c.conv input
  let _errConv := r.2.2
  let errWrite : Option ScramError := none
  let c2 : Client := { out := r.1, err := errWrite, conv := r.2.1 }
  (convValid c2.conv || c2.err.isSome, c2)

/-- State-passing translation of the `Out` method: the Go body only reads the
receiver (`Len` and `Bytes` do not mutate the buffer), so the receiver state
passes through unchanged. -/
def Client.OutM (c : Client) : Option (List Nat) × Client :=
  if c.out.length = 0 then (some [], c) else (some c.out, c)

/-- State-passing translation of the `Err` method: the body only reads
`c.err`. -/
def Client.ErrM (c : Client) : Option ScramError × Client := (c.err, c)

end Scram

namespace Scram

/-! ### The RFC 5802 section 5 worked example and variations on it -/

/-- The fixed client nonce of the RFC 5802 section 5 example. -/
def demoNonce : List Nat := asciiBytes "fyko+d2lbbFgONRv9qkxdawL"

/-- The client that `NewClient` builds for the RFC 5802 example credentials. -/
def demoClient0 : Client :=
  { out := []
    err := none
    conv := { method := "SCRAM-SHA-1", user := asciiBytes "user", pass := asciiBytes "pencil",
              nonce := demoNonce, phase := ConvPhase.initial } }

/-- First step (empty inbound data) of the example conversation. -/
def demoStep1 : Bool × Client := demoClient0.Step []

/-- The RFC 5802 example server-first-message. -/
def rfcServerFirst : List Nat :=
  asciiBytes "r=fyko+d2lbbFgONRv9qkxdawL3rfcNHYJY1ZVvWVs7j,s=QSXCR+Q6sek8bf92,i=4096"

/-- The RFC 5802 example server-final-message. -/
def rfcServerFinal : List Nat := asciiBytes "v=rmF9pqV8S7suAoZWja4dJRkFsKQ="

/-- The example server-final-message with the first byte of the `v=` value
tampered (`r` changed to `s`). -/
def tamperedServerFinal : List Nat := asciiBytes "v=smF9pqV8S7suAoZWja4dJRkFsKQ="

/-- A server-first-message whose `r=` value does not start with the client
nonce that was sent. -/
def badNonceServerFirst : List Nat := asciiBytes "r=XXXX,s=QSXCR+Q6sek8bf92,i=4096"

/-- Second step of the example conversation given the non-extending server
nonce. -/
def demoStep2Bad : Bool × Client := demoStep1.2.Step badNonceServerFirst


/-- The RFC 5802 section 5 server signature, the base64 decoding of
`rmF9pqV8S7suAoZWja4dJRkFsKQ=`. -/
def rfcServerSignature : List Nat :=
  [174, 97, 125, 166, 165, 124, 75, 187, 46, 2, 134, 86, 141, 174, 29, 37, 25, 5, 176, 164]

/-- The example conversation in the `Completed` phase, holding the RFC 5802
server signature and awaiting the server-final-message. -/
def rfcCompletedConv : Conv :=
  { method := "SCRAM-SHA-1", user := asciiBytes "user", pass := asciiBytes "pencil",
    nonce := demoNonce, phase := ConvPhase.completed rfcServerSignature }

/-- A wrapper client holding the completed example conversation. -/
def rfcCompletedClient : Client := { out := [], err := none, conv := rfcCompletedConv }

/-- A server-first-message with the example salt and nonce but iteration
count 1, for an end-to-end run cheap enough to evaluate inside proofs. -/
def i1ServerFirst : List Nat :=
  asciiBytes "r=fyko+d2lbbFgONRv9qkxdawL3rfcNHYJY1ZVvWVs7j,s=QSXCR+Q6sek8bf92,i=1"

/-- Second step of the iteration-count-1 conversation. -/
def i1Step2 : Bool × Client := demoStep1.2.Step i1ServerFirst

/-- Third step of the iteration-count-1 conversation, fed the matching
server-final-message. -/
def i1Step3 : Bool × Client := i1Step2.2.Step (asciiBytes "v=P6N4Vl84JNocmS1b12mXWu5//mY=")

/-- A conversation in the terminal success phase, for concrete instances. -/
def doneConv : Conv :=
  { method := "SCRAM-SHA-1", user := [], pass := [], nonce := [], phase := ConvPhase.done }

/-- A client holding `doneConv` with a stale byte in the buffer. -/
def doneClient : Client := { out := [9], err := none, conv := doneConv }

/-- A client whose conversation is completed with the one-byte signature `[7]`. -/
def completedClient7 : Client :=
  { out := [], err := none,
    conv := { method := "SCRAM-SHA-1", user := [], pass := [], nonce := [],
              phase := ConvPhase.completed [7] } }


/-! ### Small unit checks of the modelled codec against RFC 5802 values -/

/-- The base64 decoding of the example salt matches the raw salt bytes. -/
theorem b64_salt_check :
    b64decode (asciiBytes "QSXCR+Q6sek8bf92") =
      some [65, 37, 194, 71, 228, 58, 177, 233, 60, 109, 255, 118] := by decide

/-- The example server-first-message parses into its three fields. -/
theorem parse_server_first_check :
    parseServerFirst rfcServerFirst =
      some ⟨asciiBytes "fyko+d2lbbFgONRv9qkxdawL3rfcNHYJY1ZVvWVs7j",
            [65, 37, 194, 71, 228, 58, 177, 233, 60, 109, 255, 118], 4096⟩ := by decide

/-- The example server-final-message parses into the decoded signature. -/
theorem parse_server_final_check :
    parseServerFinal rfcServerFinal = some (ServerFinal.verifier rfcServerSignature) := by decide

/-- Username escaping replaces `=` with `=3D` and `,` with `=2C`. -/
theorem escape_user_check :
    escapeUser (asciiBytes "a=b,c") = asciiBytes "a=3Db=2Cc" := by decide

/-- The modelled SHA-1 matches the standard test vector for `"abc"`. -/
theorem sha1_abc_vector :
    sha1 (asciiBytes "abc") =
      [169, 153, 62, 54, 71, 6, 129, 106, 186, 62, 37, 113, 120, 80, 194, 108,
       156, 208, 216, 157] := by decide!

/-- The modelled SHA-256 matches the standard test vector for `"abc"`. -/
theorem sha256_abc_vector :
    sha256 (asciiBytes "abc") =
      [186, 120, 22, 191, 143, 1, 207, 234, 65, 65, 64, 222, 93, 174, 34, 35,
       176, 3, 97, 163, 150, 23, 122, 156, 180, 16, 255, 97, 242, 0, 21, 173] := by decide!

/-- The modelled HMAC matches RFC 2202 test case 2. -/
theorem hmac_rfc2202_vector :
    hmacH sha1 (asciiBytes "Jefe") (asciiBytes "what do ya want for nothing?") =
      [239, 252, 223, 106, 229, 235, 47, 162, 210, 116, 22, 213, 241, 132, 223, 156,
       37, 154, 124, 121] := by decide!

/-- The modelled `Hi` matches PBKDF2-HMAC-SHA-1 of the example password and
salt at two iterations, exercising the `INT(1)` suffix and the xor
accumulation. -/
theorem hi_pbkdf2_two_vector :
    hi sha1 (asciiBytes "pencil") [65, 37, 194, 71, 228, 58, 177, 233, 60, 109, 255, 118] 2 =
      [177, 153, 114, 112, 238, 43, 106, 81, 79, 166, 99, 239, 166, 76, 193, 66,
       7, 166, 200, 87] := by decide!

set_option maxRecDepth 100000 in
/-- End-to-end run of the modelled engine through the wrapper with the
example credentials and nonce but iteration count 1 (cheap enough to
evaluate): the produced client-first-message and client-final-message and the
accepted server-final-message agree with an independently computed
PBKDF2/HMAC-SHA-1 reference for these inputs, and the conversation ends in
the fully-done state with the done flag set and empty output. -/
theorem conversation_i1_end_to_end :
    demoStep1.2.Out = some (asciiBytes "n,,n=user,r=fyko+d2lbbFgONRv9qkxdawL") ∧
    demoStep1.1 = false ∧
    i1Step2.2.Out =
      some (asciiBytes
        "c=biws,r=fyko+d2lbbFgONRv9qkxdawL3rfcNHYJY1ZVvWVs7j,p=oOYHM9v6xY2rjZbx0JQ45hHFv6E=") ∧
    i1Step2.1 = false ∧
    i1Step3.1 = true ∧
    i1Step3.2.Out = some [] ∧
    i1Step3.2.conv.phase = ConvPhase.done := by decide!

/-! ### Claim theorems -/

/-- C1: the claim says a failing conversation step leaves its typed error
observable through `Err`.  On the code this is false: `Step` (scram.go line
142) overwrites `c.err` with the always-nil result of `bytes.Buffer.Write`,
so `Err` returns `none` after every `Step` whatever the conversation error
(first conjunct, fully general); the remaining conjuncts evaluate a concrete
failing step (a server nonce that does not extend the client nonce) whose
`NonceMismatch` error is produced by the conversation and then lost. -/
theorem step_error_lost_on_nonce_mismatch :
    (∀ (cl : Client) (input : List Nat), (cl.Step input).2.Err = none) ∧
    (engineStep demoStep1.2.conv badNonceServerFirst).2.2 = some ScramError.nonceMismatch ∧
    demoStep2Bad.2.Err = none ∧
    demoStep2Bad.1 = false :=
  ⟨fun _ _ => rfl, by decide, by decide, by decide⟩

/-- C2: the claim says a tampered `v=` value must surface
`ServerSignatureMismatch` through `Err` and never silent success.  The
conversation engine does yield `ServerSignatureMismatch` for every completed
conversation and every verifier that differs from the stored server signature
(first conjunct, fully general), and the step is not reported as success
(`Valid` stays false, the done flag stays false) - but the wrapper loses the
error: `Err` returns `none` because scram.go line 142 overwrites `c.err` with
`bytes.Buffer.Write`'s always-nil error.  The concrete conjuncts evaluate the
RFC 5802 example conversation with the first byte of the `v=` value tampered
(`r` changed to `s`). -/
theorem server_signature_mismatch_err_lost :
    (∀ (c : Conv) (ssig : List Nat) (input v : List Nat),
      c.phase = ConvPhase.completed ssig →
      parseServerFinal input = some (ServerFinal.verifier v) →
      v ≠ ssig →
      engineStep c input =
        ([], { c with phase := ConvPhase.failed ScramError.serverSignatureMismatch },
         some ScramError.serverSignatureMismatch)) ∧
    (engineStep rfcCompletedConv tamperedServerFinal).2.2 =
      some ScramError.serverSignatureMismatch ∧
    (rfcCompletedClient.Step tamperedServerFinal).2.Err = none ∧
    (rfcCompletedClient.Step tamperedServerFinal).1 = false ∧
    convValid (rfcCompletedClient.Step tamperedServerFinal).2.conv = false := by
  refine ⟨?_, by decide, by decide, by decide, by decide⟩
  intro c ssig input v hph hp hne
  rcases c with ⟨m, u, p, n, ph⟩
  cases hph
  simp [engineStep, hp, failWith, hne]

/-- C3: any `Step` on a conversation that is already terminal (success or
`Failed`) yields the `ConversationReused` error from the engine, leaves the
conversation unchanged, and produces empty output - no stale output and no
recomputation. -/
theorem step_after_terminal (cl : Client) (input : List Nat)
    (h : phaseTerminal cl.conv.phase = true) :
    engineStep cl.conv input = ([], cl.conv, some ScramError.conversationReused) ∧
    (cl.Step input).2.conv = cl.conv ∧
    (cl.Step input).2.Out = some [] ∧
    (cl.Step input).2.out = [] := by
  rcases cl with ⟨out, err, conv⟩
  rcases conv with ⟨m, u, p, n, ph⟩
  cases ph <;> simp_all [phaseTerminal, engineStep, Client.Step, Client.Out]

/-- Witness for C3 at a concrete terminal conversation. -/
theorem step_after_terminal_witness :
    engineStep doneConv [1, 2, 3] = ([], doneConv, some ScramError.conversationReused) ∧
    (doneClient.Step [1, 2, 3]).2.Out = some [] :=
  ⟨(step_after_terminal doneClient [1, 2, 3] (by decide)).1,
   (step_after_terminal doneClient [1, 2, 3] (by decide)).2.2.1⟩

/-- C4: for a `Method` produced by `NewMethod`, `NewClient` always succeeds
and returns a fresh usable client: empty output buffer, no stored error (the
modelled library setup never fails for a valid `Method`), and a conversation
in the initial phase. -/
theorem newClient_total (s : String) (m : Method) (h : NewMethod s = Except.ok m)
    (user pass : String) (nonce : List Nat) :
    NewClient m user pass nonce =
      some { out := [], err := none,
             conv := { method := m.method, user := asciiBytes user, pass := asciiBytes pass,
                       nonce := nonce, phase := ConvPhase.initial } } := by
  unfold NewMethod at h
  split at h
  case isTrue hs =>
    cases h
    simp [NewClient, hs]
  case isFalse hs => cases h

/-- Witness for C4 at concrete inputs. -/
theorem newClient_total_witness :
    NewClient ⟨"SCRAM-SHA-256"⟩ "someuser" "somepass" [1, 2, 3] =
      some { out := [], err := none,
             conv := { method := "SCRAM-SHA-256", user := asciiBytes "someuser",
                       pass := asciiBytes "somepass", nonce := [1, 2, 3],
                       phase := ConvPhase.initial } } :=
  newClient_total "SCRAM-SHA-256" ⟨"SCRAM-SHA-256"⟩ rfl "someuser" "somepass" [1, 2, 3]

/-- C5: `NewMethod` succeeds exactly on the two supported mechanism strings,
returning the `Method` wrapping them, and returns the construction error (the
spec's `UnsupportedMechanism`) with no `Method` value on every other string. -/
theorem newMethod_exact (s : String) :
    ((s = ScramSha1 ∨ s = ScramSha256) → NewMethod s = Except.ok ⟨s⟩) ∧
    (¬(s = ScramSha1 ∨ s = ScramSha256) →
      NewMethod s = Except.error "invalid SCRAM mechanism") := by
  constructor <;> intro h <;> simp [NewMethod, h]

/-- Witness for C5 at the two supported names and at the empty string, a
lowercase variant, and the SCRAM-PLUS suffix. -/
theorem newMethod_exact_witness :
    NewMethod "SCRAM-SHA-1" = Except.ok ⟨"SCRAM-SHA-1"⟩ ∧
    NewMethod "SCRAM-SHA-256" = Except.ok ⟨"SCRAM-SHA-256"⟩ ∧
    NewMethod "" = Except.error "invalid SCRAM mechanism" ∧
    NewMethod "scram-sha-1" = Except.error "invalid SCRAM mechanism" ∧
    NewMethod "SCRAM-SHA-256-PLUS" = Except.error "invalid SCRAM mechanism" :=
  ⟨(newMethod_exact "SCRAM-SHA-1").1 (Or.inl rfl),
   (newMethod_exact "SCRAM-SHA-256").1 (Or.inr rfl),
   (newMethod_exact "").2 (by decide),
   (newMethod_exact "scram-sha-1").2 (by decide),
   (newMethod_exact "SCRAM-SHA-256-PLUS").2 (by decide)⟩

/-- Helper: the branches of the engine that end in the fully-done phase
return empty output, and only they make `Valid` true. -/
theorem engineStep_done_out_empty (c : Conv) (input : List Nat)
    (h : convValid (engineStep c input).2.1 = true) :
    (engineStep c input).1 = [] ∧ (engineStep c input).2.1.phase = ConvPhase.done := by
  rcases c with ⟨m, u, p, n, ph⟩
  cases ph with
  | initial =>
    cases input <;> simp_all [engineStep, convValid, failWith]
  | clientFirstSent bare =>
    rcases hp : parseServerFirst input with _ | sf <;>
      simp_all [engineStep, convValid, failWith] <;>
      rcases hne : nonceExtends n sf.r <;> simp_all
  | completed ssig =>
    rcases hp : parseServerFinal input with _ | sf <;>
      simp_all [engineStep, convValid, failWith]
    rcases sf with v | reason <;> simp_all <;>
      rcases hv : decide (v = ssig) <;> simp_all
  | done => simp_all [engineStep, convValid]
  | failed e => simp_all [engineStep, convValid]

/-- C6: the done flag of `Step` is true exactly when the conversation reached
the fully-done success state, in which case the output buffer is empty (`Out`
returns the empty slice) and no further steps are expected; while more data
is expected (the conversation is not terminal) and no error occurred, the
flag is false. -/
theorem step_done_flag (c : Client) (input : List Nat) :
    ((c.Step input).1 = true →
      (c.Step input).2.conv.phase = ConvPhase.done ∧ (c.Step input).2.Out = some []) ∧
    (phaseTerminal (engineStep c.conv input).2.1.phase = false ∧
        (engineStep c.conv input).2.2 = none →
      (c.Step input).1 = false) := by
  constructor
  · intro h
    have hv : convValid (engineStep c.conv input).2.1 = true := by
      simpa [Client.Step] using h
    have h2 := engineStep_done_out_empty c.conv input hv
    refine ⟨h2.2, ?_⟩
    simp [Client.Step, Client.Out, h2.1]
  · intro h
    rcases h with ⟨hterm, _⟩
    have : convValid (engineStep c.conv input).2.1 = false := by
      rcases hph : (engineStep c.conv input).2.1.phase <;>
        simp_all [convValid, phaseTerminal]
    simp [Client.Step, this]

/-- Witness for C6: a third step whose verifier matches (one-byte signature
`[7]`, message `v=Bw==`) reports done with empty output. -/
theorem step_done_flag_witness :
    (completedClient7.Step (asciiBytes "v=Bw==")).2.conv.phase = ConvPhase.done ∧
    (completedClient7.Step (asciiBytes "v=Bw==")).2.Out = some [] :=
  (step_done_flag completedClient7 (asciiBytes "v=Bw==")).1 (by decide)

/-- C7: the claim says a server-first-message whose `r=` does not start with
the client nonce yields a nonce error observable via `Err` and never computes
a proof.  The engine part holds in general (first conjunct): the step fails
with `NonceMismatch`, produces no output and computes no proof.  But through
the wrapper the error is lost: `Err` returns `none` (scram.go line 142
overwrites `c.err` with `bytes.Buffer.Write`'s always-nil error), as the
concrete conjuncts show on the example conversation. -/
theorem nonce_mismatch_err_lost :
    (∀ (c : Conv) (bare : List Nat) (input : List Nat) (sf : ServerFirst),
      c.phase = ConvPhase.clientFirstSent bare →
      parseServerFirst input = some sf →
      nonceExtends c.nonce sf.r = false →
      engineStep c input =
        ([], { c with phase := ConvPhase.failed ScramError.nonceMismatch },
         some ScramError.nonceMismatch)) ∧
    (engineStep demoStep1.2.conv badNonceServerFirst).1 = [] ∧
    (engineStep demoStep1.2.conv badNonceServerFirst).2.1.phase =
      ConvPhase.failed ScramError.nonceMismatch ∧
    demoStep2Bad.2.Err = none ∧
    demoStep2Bad.2.Out = some [] := by
  refine ⟨?_, by decide, by decide, by decide, by decide⟩
  intro c bare input sf hph hp hne
  rcases c with ⟨m, u, p, n, ph⟩
  cases hph
  simp [engineStep, hp, failWith, hne]

/-- C9: `Out` never returns the nil slice: on an empty buffer it returns the
empty non-nil slice, and after any `Step` it returns exactly the bytes the
step wrote into the buffer. -/
theorem out_never_nil (c : Client) (input : List Nat) :
    c.Out ≠ none ∧
    (c.out = [] → c.Out = some []) ∧
    (c.Step input).2.Out = some (engineStep c.conv input).1 := by
  refine ⟨?_, ?_, ?_⟩
  · unfold Client.Out
    split <;> simp
  · intro h
    simp [Client.Out, h]
  · rcases hr : (engineStep c.conv input).1 with _ | ⟨b, bs⟩ <;>
      simp [Client.Step, Client.Out, hr]

/-- Witness for C9 at the example client before its first step. -/
theorem out_never_nil_witness :
    demoClient0.Out ≠ none ∧
    (demoClient0.Step []).2.Out = some (engineStep demoClient0.conv []).1 :=
  ⟨(out_never_nil demoClient0 []).1, (out_never_nil demoClient0 []).2.2⟩

/-- C10: `Out` and `Err` are pure queries: their method bodies only read the
receiver, so the state-passing translations return the receiver unchanged,
agree with the value-level functions, and repeated calls return equal
results. -/
theorem out_err_pure (c : Client) :
    c.OutM.2 = c ∧ c.ErrM.2 = c ∧
    c.OutM.1 = c.Out ∧ c.ErrM.1 = c.Err ∧
    c.OutM.2.OutM.1 = c.OutM.1 ∧ c.ErrM.2.ErrM.1 = c.ErrM.1 := by
  by_cases h : c.out.length = 0 <;>
    simp [Client.OutM, Client.ErrM, Client.Out, Client.Err, h]

end Scram
